import Mathlib

/-!
Verification of the DashMonitor status-aggregation service (src/dash.py)
against its natural-language specification.

The Python source is shallowly embedded: each adapter `check_*` becomes a
pure Lean function from the observable upstream behaviour (transport
outcome and decoded body of each HTTP call) to either a returned
`(level, detail)` pair or a raised Python exception, modelled as
`Except String (String × String)` where the error string names the
exception class (KeyError, AttributeError, TypeError).
-/

/-- A JSON value as produced by `requests.Response.json()`.  Numbers are
modelled as integers (the fields the program inspects are flags and
byte rates). -/
inductive JSON where
  | null
  | bool (b : Bool)
  | num (n : Int)
  | str (s : String)
  | arr (xs : List JSON)
  | obj (kvs : List (String × JSON))

/-- Python truthiness of a decoded JSON value: `None`, `False`, `0`, `""`,
`[]` and `{}` are falsy, everything else is truthy. -/
def truthy : JSON → Bool
  | .null => false
  | .bool b => b
  | .num n => n != 0
  | .str s => s != ""
  | .arr xs => !xs.isEmpty
  | .obj kvs => !kvs.isEmpty

/-- Python subscript `d[k]` on a decoded JSON value: a dict lookup that
raises `KeyError` when the key is absent, and `TypeError` when the value
is not a dict (string indices into non-dicts). -/
def dictIndex (j : JSON) (k : String) : Except String JSON :=
  match j with
  | .obj kvs =>
    match kvs.lookup k with
    | some v => .ok v
    | none => .error "KeyError"
  | _ => .error "TypeError"

/-- Python `d.get(k, default)` on a decoded JSON value: returns the entry or
the default when the receiver is a dict, and raises `AttributeError` when
the receiver is any other value (which has no `get` method). -/
def pyGet (j : JSON) (k : String) (dflt : JSON) : Except String JSON :=
  match j with
  | .obj kvs =>
    match kvs.lookup k with
    | some v => .ok v
    | none => .ok dflt
  | _ => .error "AttributeError"

/-- Python comparison `v > 0` on a decoded JSON value: defined for numbers
(and booleans, which are integers in Python); any other operand raises
`TypeError`. -/
def pyGtZero (j : JSON) : Except String Bool :=
  match j with
  | .num n => .ok (decide (0 < n))
  | .bool b => .ok b
  | _ => .error "TypeError"

/-- Python numeric coercion of a decoded JSON value for arithmetic (as
performed inside the size formatter): numbers pass through, booleans are
0/1, anything else raises `TypeError`. -/
def pyToInt (j : JSON) : Except String Int :=
  match j with
  | .num n => .ok n
  | .bool b => .ok (if b then 1 else 0)
  | _ => .error "TypeError"

/-- The observable behaviour of one upstream HTTP call, as seen through
`requests.get`/`Session.post` followed by `raise_for_status()` and
`.json()`:
* `netFail`: connection error, timeout, or non-success HTTP status
  (`requests.ConnectionError`/`requests.Timeout`/`requests.HTTPError`);
* `badBody`: transport success but a body that does not decode as JSON
  (`ValueError` from `.json()`);
* `ok body`: transport success with decoded JSON `body`. -/
inductive Response where
  | netFail
  | badBody
  | ok (body : JSON)

/-- The `Status` enum of dash.py (line 19): five severity levels with their
string labels. -/
inductive Status where
  | ACTIVE
  | IDLE
  | WARN
  | ERROR
  | UNKNOWN
deriving DecidableEq

/-- `Status.value`: the label string of each enum member. -/
def Status.value : Status → String
  | .ACTIVE => "success"
  | .IDLE => "info"
  | .WARN => "warning"
  | .ERROR => "danger"
  | .UNKNOWN => "default"

/-- Modelled from the spec: the repository imports `from util import filesize`
and calls `filesize.size(n, system=filesize.iec)`, but the `util` module is
not part of the sources available here.  Per spec section 4.4 the numeric
byte rate is rendered as a human-readable size under the binary (IEC) unit
convention: the count is divided (integer division) by the largest power of
1024 not exceeding it and suffixed with the matching IEC prefix. -/
def filesize_size (bytes : Int) : String :=
  if bytes ≥ 1024 ^ 5 then toString (bytes / 1024 ^ 5) ++ "Pi"
  else if bytes ≥ 1024 ^ 4 then toString (bytes / 1024 ^ 4) ++ "Ti"
  else if bytes ≥ 1024 ^ 3 then toString (bytes / 1024 ^ 3) ++ "Gi"
  else if bytes ≥ 1024 ^ 2 then toString (bytes / 1024 ^ 2) ++ "Mi"
  else if bytes ≥ 1024 then toString (bytes / 1024) ++ "Ki"
  else toString bytes

/-- `check_nzbget` (dash.py line 27): one GET against the NZBGet JSON-RPC
status path.  Transport failure is converted to `(ERROR, "NoAPI")`, an
undecodable body to `(ERROR, "BadJSON")`; a decoded body is indexed as
`data["result"]["DownloadPaused"]` / `["ServerStandBy"]` /
`["DownloadRate"]` with no further guard, so missing keys raise. -/
def check_nzbget (r : Response) : Except String (String × String) :=
  match r with
  | .netFail => .ok (Status.ERROR.value, "NoAPI")
  | .badBody => .ok (Status.ERROR.value, "BadJSON")
  | .ok data =>
    match dictIndex data "result" with
    | .error e => .error e
    | .ok res =>
      match dictIndex res "DownloadPaused" with
      | .error e => .error e
      | .ok paused =>
        if truthy paused then .ok (Status.WARN.value, "Paused")
        else
          match dictIndex res "ServerStandBy" with
          | .error e => .error e
          | .ok standby =>
            if truthy standby then .ok (Status.IDLE.value, "Idle")
            else
              match dictIndex res "DownloadRate" with
              | .error e => .error e
              | .ok rateJ =>
                match pyToInt rateJ with
                | .error e => .error e
                | .ok rate => .ok (Status.ACTIVE.value, filesize_size rate ++ "B/s")

/-- `check_sonarr` (dash.py line 55): one GET against the Sonarr status path
with the API key as a query parameter.  Transport failure maps to
`(ERROR, "NoAPI")`, an undecodable body to `(ERROR, "BadJSON")`; a decoded
body is indexed as `data["version"]` (raising `KeyError` when absent) and
its truthiness selects `(ACTIVE, "Online")` or `(ERROR, "BadAPI")`. -/
def check_sonarr (r : Response) : Except String (String × String) :=
  match r with
  | .netFail => .ok (Status.ERROR.value, "NoAPI")
  | .badBody => .ok (Status.ERROR.value, "BadJSON")
  | .ok data =>
    match dictIndex data "version" with
    | .error e => .error e
    | .ok v =>
      if truthy v then .ok (Status.ACTIVE.value, "Online")
      else .ok (Status.ERROR.value, "BadAPI")

/-- `check_radarr` (dash.py line 80): textually the same logic as
`check_sonarr`, against the Radarr base path and key. -/
def check_radarr (r : Response) : Except String (String × String) :=
  match r with
  | .netFail => .ok (Status.ERROR.value, "NoAPI")
  | .badBody => .ok (Status.ERROR.value, "BadJSON")
  | .ok data =>
    match dictIndex data "version" with
    | .error e => .error e
    | .ok v =>
      if truthy v then .ok (Status.ACTIVE.value, "Online")
      else .ok (Status.ERROR.value, "BadAPI")

/-- The URL `check_sonarr` requests (dash.py line 64), as a function of the
configured base path and API key. -/
def sonarr_request_url (path key : String) : String :=
  path ++ "/api/system/status?apikey=" ++ key

/-- The URL `check_radarr` requests (dash.py line 89), as a function of the
configured base path and API key. -/
def radarr_request_url (path key : String) : String :=
  path ++ "/api/system/status?apikey=" ++ key

/-- Interpretation of the decoded `web.update_ui` response inside
`check_deluge` (dash.py lines 158-167), following the chained
`data.get('result', False).get('stats', False)` lookups of the source
(each `.get` on a non-dict receiver raises `AttributeError`). -/
def deluge_interp (data : JSON) : Except String (String × String) :=
  match pyGet data "result" (.bool false) with
  | .error e => .error e
  | .ok res =>
    match pyGet res "stats" (.bool false) with
    | .error e => .error e
    | .ok stats =>
      if truthy stats then
        match pyGet stats "download_rate" (.num 0) with
        | .error e => .error e
        | .ok dl =>
          match pyGtZero dl with
          | .error e => .error e
          | .ok dlPos =>
            if dlPos then
              match dictIndex data "result" with
              | .error e => .error e
              | .ok res2 =>
                match dictIndex res2 "stats" with
                | .error e => .error e
                | .ok stats2 =>
                  match dictIndex stats2 "download_rate" with
                  | .error e => .error e
                  | .ok rateJ =>
                    match pyToInt rateJ with
                    | .error e => .error e
                    | .ok rate => .ok (Status.ACTIVE.value, filesize_size rate ++ "B/s")
            else
              match pyGet stats "upload_rate" (.num 0) with
              | .error e => .error e
              | .ok ul =>
                match pyGtZero ul with
                | .error e => .error e
                | .ok ulPos =>
                  if ulPos then .ok (Status.IDLE.value, "Seeding")
                  else .ok (Status.IDLE.value, "Idle")
      else .ok (Status.ERROR.value, "BadAPI")

/-- `check_deluge` (dash.py line 105): a two-step session-authenticated
JSON-RPC sequence.  The input is the upstream behaviour of the
`auth.login` POST and of the `web.update_ui` POST; the output pairs the
check's result with the list of JSON-RPC methods actually issued (the
source sends the query only after the login call returned without a
transport exception; the login body is never inspected, so a login
response that merely fails to decode still counts as transport success). -/
def check_deluge (login query : Response) :
    Except String (String × String) × List String :=
  match login with
  | .netFail => (.ok (Status.ERROR.value, "NoAPILogin"), ["auth.login"])
  | _ =>
    match query with
    | .netFail => (.ok (Status.ERROR.value, "NoAPI"), ["auth.login", "web.update_ui"])
    | .badBody => (.ok (Status.ERROR.value, "BadJSON"), ["auth.login", "web.update_ui"])
    | .ok data => (deluge_interp data, ["auth.login", "web.update_ui"])

/-- The module-level mutable state of dash.py: the global
`deluge_session = None` (line 16), left over from the commented-out
session-reuse variant (lines 118-119) and never read or written by the
active code. -/
structure ProcState where
  deluge_session : Option Unit

/-- One fixed set of upstream behaviours for a single aggregate check:
the observable outcome of each HTTP call the four adapters may make. -/
structure Upstream where
  nzbget : Response
  sonarr : Response
  radarr : Response
  deluge_login : Response
  deluge_query : Response

/-- `status` (dash.py line 170): the `/status` route handler body.  It
builds the dict literal `{'nzbget': check_nzbget(), 'deluge':
check_deluge(), 'sonarr': check_sonarr(), 'radarr': check_radarr()}`,
whose values Python evaluates in that order; an exception raised by one
adapter aborts the remaining calls and propagates.  The result carries
the association list handed to `jsonify`, the trace of adapter
invocations performed, and the (untouched) module state. -/
def status (s : ProcState) (u : Upstream) :
    Except String (List (String × (String × String))) × List String × ProcState :=
  match check_nzbget u.nzbget with
  | .error e => (.error e, ["check_nzbget"], s)
  | .ok rn =>
    match (check_deluge u.deluge_login u.deluge_query).1 with
    | .error e => (.error e, ["check_nzbget", "check_deluge"], s)
    | .ok rd =>
      match check_sonarr u.sonarr with
      | .error e => (.error e, ["check_nzbget", "check_deluge", "check_sonarr"], s)
      | .ok rs =>
        match check_radarr u.radarr with
        | .error e =>
          (.error e, ["check_nzbget", "check_deluge", "check_sonarr", "check_radarr"], s)
        | .ok rr =>
          (.ok [("nzbget", rn), ("deluge", rd), ("sonarr", rs), ("radarr", rr)],
           ["check_nzbget", "check_deluge", "check_sonarr", "check_radarr"], s)

/-- The HTTP response of `GET /status`: when the handler body returns, Flask
`jsonify` serializes the dict to a `200 OK` JSON object whose values are
the two-element arrays `[level, detail]`; when the handler raises, no 200
response is produced (the exception leaves the handler). -/
def route_status (s : ProcState) (u : Upstream) :
    Except String (Nat × List (String × (String × String))) × ProcState :=
  match status s u with
  | (.ok payload, _, s2) => (.ok (200, payload), s2)
  | (.error e, _, s2) => (.error e, s2)

/-! ## Helper lemmas -/

/-- The five label strings of the `Status` taxonomy. -/
def status_labels : List String :=
  ["success", "info", "warning", "danger", "default"]

theorem check_nzbget_level (r : Response) (p : String × String)
    (h : check_nzbget r = .ok p) : p.1 ∈ status_labels := by
  cases r with
  | netFail => injection h with h1; subst h1; decide
  | badBody => injection h with h1; subst h1; decide
  | ok data =>
    simp only [check_nzbget] at h
    repeat' split at h
    all_goals first
      | exact Except.noConfusion h
      | (injection h with h1; subst h1; simp [status_labels, Status.value])

theorem check_sonarr_level (r : Response) (p : String × String)
    (h : check_sonarr r = .ok p) : p.1 ∈ status_labels := by
  cases r with
  | netFail => injection h with h1; subst h1; decide
  | badBody => injection h with h1; subst h1; decide
  | ok data =>
    simp only [check_sonarr] at h
    repeat' split at h
    all_goals first
      | exact Except.noConfusion h
      | (injection h with h1; subst h1; simp [status_labels, Status.value])

theorem check_radarr_level (r : Response) (p : String × String)
    (h : check_radarr r = .ok p) : p.1 ∈ status_labels := by
  cases r with
  | netFail => injection h with h1; subst h1; decide
  | badBody => injection h with h1; subst h1; decide
  | ok data =>
    simp only [check_radarr] at h
    repeat' split at h
    all_goals first
      | exact Except.noConfusion h
      | (injection h with h1; subst h1; simp [status_labels, Status.value])

theorem deluge_interp_level (data : JSON) (p : String × String)
    (h : deluge_interp data = .ok p) : p.1 ∈ status_labels := by
  simp only [deluge_interp] at h
  repeat' split at h
  all_goals first
    | exact Except.noConfusion h
    | (injection h with h1; subst h1; simp [status_labels, Status.value])

theorem check_deluge_level (l q : Response) (p : String × String)
    (h : (check_deluge l q).1 = .ok p) : p.1 ∈ status_labels := by
  cases l with
  | netFail => injection h with h1; subst h1; decide
  | badBody =>
    cases q with
    | netFail => injection h with h1; subst h1; decide
    | badBody => injection h with h1; subst h1; decide
    | ok data => exact deluge_interp_level data p h
  | ok jb =>
    cases q with
    | netFail => injection h with h1; subst h1; decide
    | badBody => injection h with h1; subst h1; decide
    | ok data => exact deluge_interp_level data p h

theorem status_state_invariant (s1 s2 : ProcState) (u : Upstream) :
    (status s1 u).1 = (status s2 u).1 ∧
    (status s1 u).2.1 = (status s2 u).2.1 ∧
    (status s1 u).2.2 = s1 := by
  cases h1 : check_nzbget u.nzbget <;>
    cases h2 : (check_deluge u.deluge_login u.deluge_query).1 <;>
      cases h3 : check_sonarr u.sonarr <;>
        cases h4 : check_radarr u.radarr <;>
          simp [status, h1, h2, h3, h4]

/-! ## Claims -/

/-- Claim C1, counterexample to the claim as stated: the claim says every
adapter's `check()` returns a `CheckResult` and never raises, for every
response body including bodies that decode but lack expected fields; but
`check_sonarr` on a decoded JSON object without a `version` key raises
`KeyError` out of `check()`. -/
theorem C1_counterexample :
    check_sonarr (.ok (.obj [("foo", .num 1)])) = .error "KeyError" := rfl

/-- Claim C1 (amended): every transport failure and every undecodable body
is converted into a `CheckResult` — `(danger, "NoAPI")` for network
failures on the single-step adapters, `(danger, "NoAPILogin")` for the
deluge login step, and `(danger, "BadJSON")` for bodies that do not decode
— but a body that decodes while lacking expected fields may raise. -/
theorem C1_amended_recovery :
    check_nzbget .netFail = .ok ("danger", "NoAPI") ∧
    check_nzbget .badBody = .ok ("danger", "BadJSON") ∧
    check_sonarr .netFail = .ok ("danger", "NoAPI") ∧
    check_sonarr .badBody = .ok ("danger", "BadJSON") ∧
    check_radarr .netFail = .ok ("danger", "NoAPI") ∧
    check_radarr .badBody = .ok ("danger", "BadJSON") ∧
    (∀ q, (check_deluge .netFail q).1 = .ok ("danger", "NoAPILogin")) ∧
    (∀ j, (check_deluge (.ok j) .netFail).1 = .ok ("danger", "NoAPI")) ∧
    (check_deluge .badBody .netFail).1 = .ok ("danger", "NoAPI") ∧
    (check_deluge .badBody .badBody).1 = .ok ("danger", "BadJSON") ∧
    (∀ j, (check_deluge (.ok j) .badBody).1 = .ok ("danger", "BadJSON")) :=
  ⟨rfl, rfl, rfl, rfl, rfl, rfl, fun _ => rfl, fun _ => rfl, rfl, rfl, fun _ => rfl⟩

/-- Claim C2: whenever each of the four adapters returns a `CheckResult`
(any mix of success- and `Error`-level outcomes), one aggregate check
invokes each adapter exactly once — the invocation trace is precisely the
four adapter names — and returns the mapping with all four `ServiceName`
keys, each bound to that adapter's own independently-determined result. -/
theorem C2_aggregate_all_keys (u : Upstream) (s : ProcState)
    (rn rd rs rr : String × String)
    (hn : check_nzbget u.nzbget = .ok rn)
    (hd : (check_deluge u.deluge_login u.deluge_query).1 = .ok rd)
    (hs : check_sonarr u.sonarr = .ok rs)
    (hr : check_radarr u.radarr = .ok rr) :
    (status s u).1 =
      .ok [("nzbget", rn), ("deluge", rd), ("sonarr", rs), ("radarr", rr)] ∧
    (status s u).2.1 =
      ["check_nzbget", "check_deluge", "check_sonarr", "check_radarr"] := by
  simp [status, hn, hd, hs, hr]

/-- Witness for C2 at a concrete upstream behaviour (all four services
unreachable): every key is present and bound to that service's own
`Error`-level result, and each adapter was invoked exactly once. -/
theorem C2_aggregate_all_keys_witness :
    (status ⟨none⟩ ⟨.netFail, .netFail, .netFail, .netFail, .netFail⟩).1 =
      .ok [("nzbget", ("danger", "NoAPI")), ("deluge", ("danger", "NoAPILogin")),
           ("sonarr", ("danger", "NoAPI")), ("radarr", ("danger", "NoAPI"))] ∧
    (status ⟨none⟩ ⟨.netFail, .netFail, .netFail, .netFail, .netFail⟩).2.1 =
      ["check_nzbget", "check_deluge", "check_sonarr", "check_radarr"] :=
  C2_aggregate_all_keys ⟨.netFail, .netFail, .netFail, .netFail, .netFail⟩ ⟨none⟩
    ("danger", "NoAPI") ("danger", "NoAPILogin") ("danger", "NoAPI") ("danger", "NoAPI")
    rfl rfl rfl rfl

/-- The decoded body of a well-formed NZBGet `jsonrpc/status` response,
with the three fields `check_nzbget` inspects. -/
def nzbget_status_body (pause standby : Bool) (rate : Int) : JSON :=
  .obj [("result", .obj [("DownloadPaused", .bool pause),
                         ("ServerStandBy", .bool standby),
                         ("DownloadRate", .num rate)])]

/-- Claim C5: on a decoded NZBGet status body the interpretation follows the
strict priority order of the source — the pause flag wins over every other
field (in particular when pause and standby are both set), then the standby
flag, then the formatted download rate with the detail ending in "/s". -/
theorem C5_nzbget_priority (pause standby : Bool) (rate : Int) :
    check_nzbget (.ok (nzbget_status_body pause standby rate)) =
      (if pause then .ok ("warning", "Paused")
       else if standby then .ok ("info", "Idle")
       else .ok ("success", filesize_size rate ++ "B/s")) := by
  cases pause <;> cases standby <;> rfl

/-- Claim C8: the two REST+API-key adapters compute the same function of the
upstream behaviour — `check_sonarr` and `check_radarr` agree on every
response — and their request URLs are the same function of the configured
base path and API key. -/
theorem C8_sonarr_radarr_equiv :
    (∀ r, check_sonarr r = check_radarr r) ∧
    (∀ path key, sonarr_request_url path key = radarr_request_url path key) :=
  ⟨fun r => by cases r <;> rfl, fun _ _ => rfl⟩

/-- Claim C10: `check_nzbget` can never return a result with detail
`"BadAPI"`; a decoded body that lacks the expected `result` object makes it
raise (`KeyError`) instead of producing a `BadAPI` result. -/
theorem C10_nzbget_no_badapi :
    (∀ r p, check_nzbget r = .ok p → p ≠ ("danger", "BadAPI")) ∧
    check_nzbget (.ok (.obj [])) = .error "KeyError" := by
  refine ⟨?_, rfl⟩
  intro r p h
  cases r with
  | netFail => injection h with h1; subst h1; decide
  | badBody => injection h with h1; subst h1; decide
  | ok data =>
    simp only [check_nzbget] at h
    repeat' split at h
    all_goals first
      | exact Except.noConfusion h
      | (injection h with h1; subst h1; simp [Status.value])

/-- Witness for C10: applying the universal part at the concrete transport
failure input, whose result `(danger, "NoAPI")` indeed has a detail other
than `"BadAPI"`. -/
theorem C10_nzbget_no_badapi_witness :
    (("danger", "NoAPI") : String × String) ≠ ("danger", "BadAPI") :=
  C10_nzbget_no_badapi.1 .netFail ("danger", "NoAPI") rfl

/-- The decoded body of a well-formed Deluge `web.update_ui` response whose
`result.stats` object carries the two rate fields `check_deluge` inspects. -/
def deluge_ui_body (d u : Int) : JSON :=
  .obj [("result", .obj [("stats", .obj [("download_rate", .num d),
                                         ("upload_rate", .num u)])])]

theorem deluge_interp_stats (d u : Int) :
    deluge_interp (deluge_ui_body d u) =
      (if 0 < d then .ok ("success", filesize_size d ++ "B/s")
       else if 0 < u then .ok ("info", "Seeding")
       else .ok ("info", "Idle")) := by
  show (if decide (0 < d) = true
          then (Except.ok (Status.ACTIVE.value, filesize_size d ++ "B/s") :
                 Except String (String × String))
        else if decide (0 < u) = true then Except.ok (Status.IDLE.value, "Seeding")
        else Except.ok (Status.IDLE.value, "Idle")) = _
  by_cases hd : 0 < d
  · simp [hd, Status.value]
  · by_cases hu : 0 < u <;> simp [hd, hu, Status.value]

theorem deluge_interp_no_stats (kvs : List (String × JSON))
    (hk : kvs.lookup "stats" = none) :
    deluge_interp (.obj [("result", .obj kvs)]) = .ok ("danger", "BadAPI") := by
  simp [deluge_interp, pyGet, dictIndex, hk, truthy, Status.value]

/-- Claim C6: with both HTTP steps of the deluge check succeeding at the
transport level and the query body decoding, a `result` object whose
`stats` carries the two rates yields `Active` with the formatted rate
ending in "B/s" when `download_rate > 0`, else `(Idle, "Seeding")` when
`upload_rate > 0`, else `(Idle, "Idle")`; and a `result` object lacking a
`stats` entry yields `(Error, "BadAPI")`. -/
theorem C6_deluge_stats_cases (l : Response) (hl : l ≠ .netFail) (d u : Int)
    (kvs : List (String × JSON)) (hk : kvs.lookup "stats" = none) :
    ((check_deluge l (.ok (deluge_ui_body d u))).1 =
      (if 0 < d then .ok ("success", filesize_size d ++ "B/s")
       else if 0 < u then .ok ("info", "Seeding")
       else .ok ("info", "Idle"))) ∧
    (check_deluge l (.ok (.obj [("result", .obj kvs)]))).1 =
      .ok ("danger", "BadAPI") := by
  cases l with
  | netFail => exact absurd rfl hl
  | badBody => exact ⟨deluge_interp_stats d u, deluge_interp_no_stats kvs hk⟩
  | ok jb => exact ⟨deluge_interp_stats d u, deluge_interp_no_stats kvs hk⟩

/-- Witness for C6 at concrete inputs: a download rate of 500000 bytes/s and
no upload yields `Active` with the IEC-formatted rate "488KiB/s", and a
`result` object with only a `connected` entry (no `stats`) yields
`(Error, "BadAPI")`. -/
theorem C6_deluge_stats_cases_witness :
    (check_deluge .badBody (.ok (deluge_ui_body 500000 0))).1 =
      .ok ("success", "488KiB/s") ∧
    (check_deluge .badBody (.ok (.obj [("result",
        .obj [("connected", .bool true)])]))).1 = .ok ("danger", "BadAPI") := by
  have h := C6_deluge_stats_cases .badBody (fun h => Response.noConfusion h)
    500000 0 [("connected", .bool true)] rfl
  exact ⟨h.1.trans rfl, h.2⟩

/-- Claim C7: a transport failure on the deluge `auth.login` step yields
exactly `(Error, "NoAPILogin")` and the query is not issued; once the login
call returned without a transport failure, the `web.update_ui` query is
always issued, and a transport failure there yields exactly
`(Error, "NoAPI")`. -/
theorem C7_deluge_two_step (l q : Response) (hl : l ≠ .netFail) :
    ((check_deluge .netFail q).1 = .ok ("danger", "NoAPILogin") ∧
     (check_deluge .netFail q).2 = ["auth.login"]) ∧
    (check_deluge l .netFail).1 = .ok ("danger", "NoAPI") ∧
    (check_deluge l q).2 = ["auth.login", "web.update_ui"] := by
  cases l with
  | netFail => exact absurd rfl hl
  | badBody => cases q <;> exact ⟨⟨rfl, rfl⟩, rfl, rfl⟩
  | ok jb => cases q <;> exact ⟨⟨rfl, rfl⟩, rfl, rfl⟩

/-- Witness for C7 at concrete inputs: login transport failure gives
`NoAPILogin` with only the login request issued; a login that returned
(with an undecodable body) followed by a query transport failure gives
`NoAPI` with both requests issued. -/
theorem C7_deluge_two_step_witness :
    ((check_deluge .netFail .netFail).1 = .ok ("danger", "NoAPILogin") ∧
     (check_deluge .netFail .netFail).2 = ["auth.login"]) ∧
    (check_deluge .badBody .netFail).1 = .ok ("danger", "NoAPI") ∧
    (check_deluge .badBody .netFail).2 = ["auth.login", "web.update_ui"] :=
  C7_deluge_two_step .badBody .netFail (fun h => Response.noConfusion h)

/-- Claim C4, counterexample to the claim as stated: the claim says an
absent `version` field yields exactly `(Error, "BadAPI")`, but on a decoded
JSON object without a `version` key `check_radarr` raises `KeyError`
instead of returning any result. -/
theorem C4_counterexample :
    check_radarr (.ok (.obj [])) = .error "KeyError" ∧
    check_radarr (.ok (.obj [])) ≠ .ok ("danger", "BadAPI") :=
  ⟨rfl, fun h => Except.noConfusion h⟩

/-- Claim C4 (amended): for both REST+API-key adapters, when the HTTP call
succeeds and the body decodes as JSON, a present truthy (non-empty)
`version` field yields exactly `(Active, "Online")` and a present falsy
(empty) `version` field yields exactly `(Error, "BadAPI")`; an absent
`version` field makes the adapter raise `KeyError` instead. -/
theorem C4_version_cases (dataP dataA v : JSON)
    (hv : dictIndex dataP "version" = .ok v)
    (ha : dictIndex dataA "version" = .error "KeyError") :
    (check_sonarr (.ok dataP) =
      (if truthy v then .ok ("success", "Online") else .ok ("danger", "BadAPI"))) ∧
    (check_radarr (.ok dataP) =
      (if truthy v then .ok ("success", "Online") else .ok ("danger", "BadAPI"))) ∧
    check_sonarr (.ok dataA) = .error "KeyError" ∧
    check_radarr (.ok dataA) = .error "KeyError" := by
  refine ⟨?_, ?_, ?_, ?_⟩ <;>
    simp [check_sonarr, check_radarr, hv, ha, Status.value]

/-- Witness for C4 at concrete inputs: a body with a non-empty version
string yields `(Active, "Online")` and a body without a version key raises
`KeyError`. -/
theorem C4_version_cases_witness :
    check_sonarr (.ok (.obj [("version", .str "3.0.0")])) = .ok ("success", "Online") ∧
    check_sonarr (.ok (.obj [])) = .error "KeyError" := by
  have h := C4_version_cases (.obj [("version", .str "3.0.0")]) (.obj [])
    (.str "3.0.0") rfl rfl
  exact ⟨h.1.trans rfl, h.2.2.1⟩

/-- Claim C3, counterexample to the claim as stated: the claim says a
well-formed `GET /status` returns HTTP 200 for every upstream behaviour,
but when NZBGet answers 200 with the JSON body `{}` the handler raises
`KeyError` out of the route, so the handler produces no 200 response (the
web framework turns the escaped exception into an HTTP 500). -/
theorem C3_counterexample :
    (route_status ⟨none⟩
      ⟨.ok (.obj []), .netFail, .netFail, .netFail, .netFail⟩).1 =
      .error "KeyError" := rfl

/-- Claim C3 (amended): for every upstream behaviour under which each
adapter returns a `CheckResult` (in particular all transport failures and
undecodable bodies), `GET /status` returns HTTP 200 with the JSON object
keyed by the four service names whose values are the `[levelLabel, detail]`
pairs, and every level label is one of the five configured taxonomy labels;
such upstream failures appear only inside the payload. -/
theorem C3_route_status_ok (u : Upstream) (s : ProcState)
    (rn rd rs rr : String × String)
    (hn : check_nzbget u.nzbget = .ok rn)
    (hd : (check_deluge u.deluge_login u.deluge_query).1 = .ok rd)
    (hs : check_sonarr u.sonarr = .ok rs)
    (hr : check_radarr u.radarr = .ok rr) :
    (route_status s u).1 =
      .ok (200, [("nzbget", rn), ("deluge", rd), ("sonarr", rs), ("radarr", rr)]) ∧
    rn.1 ∈ status_labels ∧ rd.1 ∈ status_labels ∧
    rs.1 ∈ status_labels ∧ rr.1 ∈ status_labels := by
  refine ⟨?_, check_nzbget_level _ _ hn, check_deluge_level _ _ _ hd,
    check_sonarr_level _ _ hs, check_radarr_level _ _ hr⟩
  simp [route_status, status, hn, hd, hs, hr]

/-- Witness for C3 (amended) at a concrete upstream behaviour with every
service unreachable: the route returns 200 and all the failures appear
inside the payload with taxonomy labels. -/
theorem C3_route_status_ok_witness :
    (route_status ⟨none⟩ ⟨.netFail, .netFail, .netFail, .netFail, .netFail⟩).1 =
      .ok (200, [("nzbget", ("danger", "NoAPI")), ("deluge", ("danger", "NoAPILogin")),
                 ("sonarr", ("danger", "NoAPI")), ("radarr", ("danger", "NoAPI"))]) ∧
    ("danger" : String) ∈ status_labels ∧ ("danger" : String) ∈ status_labels ∧
    ("danger" : String) ∈ status_labels ∧ ("danger" : String) ∈ status_labels :=
  C3_route_status_ok ⟨.netFail, .netFail, .netFail, .netFail, .netFail⟩ ⟨none⟩
    ("danger", "NoAPI") ("danger", "NoAPILogin") ("danger", "NoAPI") ("danger", "NoAPI")
    rfl rfl rfl rfl

/-- Claim C9: for a fixed set of upstream behaviours the aggregate check is
deterministic and keeps no cross-request state: its result (and its
invocation trace) does not depend on the retained module state, a second
invocation from the post-state of the first yields the same result, and
the module state is left unchanged. -/
theorem C9_status_deterministic (s1 s2 : ProcState) (u : Upstream) :
    (status s1 u).1 = (status s2 u).1 ∧
    (status ((status s1 u).2.2) u).1 = (status s1 u).1 ∧
    (status s1 u).2.2 = s1 :=
  ⟨(status_state_invariant s1 s2 u).1,
   (status_state_invariant ((status s1 u).2.2) s1 u).1,
   (status_state_invariant s1 s1 u).2.2⟩
